import Mathlib

/-!
# Verification of the UW decision-support ML core

Shallow embedding of the ml-service model-lifecycle / feature-engineering
pipeline (files under `ml-service/app`): FeatureEngineer, ComplexityModel,
TestYieldModel, ModelManager, DataLoader feature extraction,
InferenceService feature preparation and the Trainer orchestration.

Modelling conventions:
* Python floats and ints are both modelled as `ℚ` (exact arithmetic).  All
  rule thresholds and increments in the source are short decimal literals;
  the reachable boundary sums were checked against IEEE-double evaluation
  order and agree with exact arithmetic on every threshold comparison, so
  the `ℚ` model is faithful for the verified properties.
* Dict entries read only through falsiness, `== "literal"` comparisons or
  `.get(k)` without a default are `Option` fields, where `none` covers an
  absent key and a key present with value `None` alike (those reads cannot
  distinguish them).  Entries whose stored `None` is observable — the
  numeric features read via `.get(k, default)` and then compared, divided
  or cast to `float32`, where a stored `None` raises `TypeError` — are
  three-state `Option (Option ℚ)` fields: `none` = key absent, `some none`
  = key present holding `None`, `some (some q)` = a stored number.  Such
  maps are reachable at serving time: the request schema's applicant
  fields are all optional with default `None` and `model_dump()` keeps
  `None` entries, so the serving preparation emits them.
* Heterogeneous dict values (the raw feature maps compared for train/serve
  parity) use the `Val` type, mirroring Python's runtime tagging; note that
  an int and a float with equal value are identified, which only weakens
  disequalities, never equalities.
* Raising a Python exception is modelled by `Except PyError`.
* `datetime.now()` is an explicit `today : UWDate` argument.
* External learned predictors (LightGBM / calibrated classifiers) are
  opaque function parameters; the pipeline never inspects them beyond
  calling `predict`.  Training metrics bookkeeping (pure reporting of
  externally computed numbers) is elided.
-/

/-! ## Settings (`app/config.py`) -/

def min_training_samples : ℕ := 100

def complexity_features : List String :=
  ["age", "bmi", "sum_assured", "smoking_status",
   "condition_count", "medication_count", "has_cardiac",
   "has_diabetes", "has_hypertension", "has_renal",
   "family_history_cardiac", "family_history_diabetes"]

def test_yield_features : List String :=
  ["age", "bmi", "smoking_status", "condition_count",
   "has_condition_related", "sum_assured_tier"]

def model_dir : String := "models"

/-! ## Data model -/

/-- A calendar date; stands for the dates handled by `datetime`. -/
structure UWDate where
  year : Int
  month : Int
  day : Int
deriving DecidableEq

/-- One medical disclosure record.  The source reads `disclosure_type`,
`condition_name` and `family_condition` via `dict.get(_, "")` (or via a
comparison against a fixed tag where an absent key compares unequal, which
is equivalent to the `""` default), so plain `String` fields with `""` for
absent are faithful. -/
structure Disclosure where
  disclosure_type : String
  condition_name : String
  family_condition : String
deriving DecidableEq

/-- Applicant record.  The training rows spell the keys in camelCase
(`heightCm`, `weightKg`, `smokingStatus`) and the serving request in
snake_case; this structure holds the underlying values common to both
shapes, which is exactly what the parity claim compares.  `age` is
three-state (`none` = key absent, `some none` = key present holding
`None`, `some (some q)` = a stored number) because the training-row
extraction reads it via `.get("age", 35)`, where a stored `None` survives
the default; every read of the remaining fields goes through falsiness, a
defaultless `.get` or a string comparison, so for them `none` faithfully
covers absent and present-`None` alike.  `date_of_birth` is `some d` for
a parseable ISO date; an unparsable string is folded into `none` (the
source maps both to a `None` age). -/
structure Applicant where
  age : Option (Option ℚ)
  bmi : Option ℚ
  height_cm : Option ℚ
  weight_kg : Option ℚ
  smoking_status : Option String
  date_of_birth : Option UWDate

/-- Python truthiness of an optional numeric value: `None` and `0` are
falsy. -/
def truthyNum (o : Option ℚ) : Bool := o.getD 0 ≠ 0

/-- Python `a or b` on optional numerics. -/
def pyOr (a b : Option ℚ) : Option ℚ := if truthyNum a then a else b

/-- Python `a or d` where `d` is a concrete numeric default. -/
def pyOrD (a : Option ℚ) (d : ℚ) : ℚ := if truthyNum a then a.getD 0 else d

/-- Python `d.get(k, default)` on a three-state numeric entry: the default
applies only when the key is absent, so the result is `none` exactly when
the key is present holding `None`. -/
def pyGetNum (field : Option (Option ℚ)) (d : ℚ) : Option ℚ :=
  match field with
  | none => some d
  | some v => v

/-- The number a defaulted `.get` read yields when it does not yield
`None`. -/
def pyNumD (field : Option (Option ℚ)) (d : ℚ) : ℚ := (pyGetNum field d).getD d

/-- A defaulted `.get` read yields a number whenever the key is not
present holding `None`. -/
theorem pyGetNum_of_ne (field : Option (Option ℚ)) (d : ℚ)
    (h : field ≠ some none) : pyGetNum field d = some (pyNumD field d) := by
  match field with
  | none => rfl
  | some none => exact absurd rfl h
  | some (some q) => rfl

/-- Tagged Python runtime value, used for the raw feature maps. -/
inductive Val where
  | num (q : ℚ)
  | str (s : String)
  | bool (b : Bool)
  | null
deriving DecidableEq

/-- Python truthiness of a `Val`. -/
def truthyVal : Val → Bool
  | .num q => q ≠ 0
  | .str s => s ≠ ""
  | .bool b => b
  | .null => false

/-- A raised Python exception. -/
inductive PyError where
  | valueError (msg : String)
  | keyError (key : String)
  | typeError (msg : String)
deriving DecidableEq

instance exceptDecEq {ε α : Type} [DecidableEq ε] [DecidableEq α] :
    DecidableEq (Except ε α) := fun x y =>
  match x, y with
  | .ok a, .ok b =>
      if h : a = b then isTrue (by rw [h])
      else isFalse (fun hc => by injection hc; contradiction)
  | .error a, .error b =>
      if h : a = b then isTrue (by rw [h])
      else isFalse (fun hc => by injection hc; contradiction)
  | .ok _, .error _ => isFalse (fun hc => by injection hc)
  | .error _, .ok _ => isFalse (fun hc => by injection hc)

/-- Python `str.lower()` (the source only lower-cases ASCII keyword
text); written over the character list so it is kernel-computable. -/
def pyLower (s : String) : String := String.mk (s.data.map Char.toLower)

/-- Substring test (Python `kw in text`). -/
def containsSub (text kw : String) : Bool := decide (kw.data <:+: text.data)

/-- Python `any(kw in text for kw in kws)`. -/
def kwAny (text : String) (kws : List String) : Bool := kws.any (containsSub text)

/-! ## FeatureEngineer (`app/training/feature_engineering.py`) -/

/-- Round to one decimal place (Python `round(x, 1)`; the half-way tie
rule differs from Python's banker's rounding only at exact `.05` ties,
which no verified statement exercises). -/
def roundTo1 (q : ℚ) : ℚ := (round (10 * q) : ℤ) / 10

namespace FeatureEngineer

/-- `FeatureEngineer.calculate_bmi`. -/
def calculate_bmi (height_cm weight_kg : Option ℚ) : Option ℚ :=
  if ¬ truthyNum height_cm ∨ ¬ truthyNum weight_kg then none
  else
    let h := height_cm.getD 0 / 100
    some (roundTo1 (weight_kg.getD 0 / (h * h)))

/-- `FeatureEngineer.calculate_age`: whole-year difference, decremented
when (month, day) of `today` precedes that of the birth date;
`datetime.now()` is the explicit `today` argument. -/
def calculate_age (date_of_birth : Option UWDate) (today : UWDate) : Option ℚ :=
  match date_of_birth with
  | none => none
  | some dob =>
      let a := today.year - dob.year
      let a :=
        if today.month < dob.month ∨ (today.month = dob.month ∧ today.day < dob.day)
        then a - 1 else a
      some (a : ℚ)

/-- `FeatureEngineer.encode_smoking_status`. -/
def encode_smoking_status (status : Option String) : ℚ :=
  if status = some "current" then 2
  else if status = some "former" then 1
  else 0

/-- `FeatureEngineer.get_sum_assured_tier`. -/
def get_sum_assured_tier (sum_assured : ℚ) : ℚ :=
  if sum_assured ≥ 10000000 then 3
  else if sum_assured ≥ 5000000 then 2
  else if sum_assured ≥ 2500000 then 1
  else 0

/-- Joined lower-cased condition names over `condition` disclosures. -/
def condition_text (ds : List Disclosure) : String :=
  String.intercalate " "
    ((ds.filter (fun d => d.disclosure_type == "condition")).map
      (fun d => pyLower d.condition_name))

/-- Joined lower-cased family conditions over `family_history` disclosures. -/
def family_text (ds : List Disclosure) : String :=
  String.intercalate " "
    ((ds.filter (fun d => d.disclosure_type == "family_history")).map
      (fun d => pyLower d.family_condition))

/-- Result of `FeatureEngineer.extract_condition_flags`. -/
structure ConditionFlags where
  has_cardiac : Bool
  has_diabetes : Bool
  has_hypertension : Bool
  has_renal : Bool
  has_hepatic : Bool
  has_respiratory : Bool
  has_cancer : Bool
  has_neurological : Bool
deriving DecidableEq

/-- `FeatureEngineer.extract_condition_flags`. -/
def extract_condition_flags (ds : List Disclosure) : ConditionFlags :=
  let t := condition_text ds
  { has_cardiac := kwAny t ["cardiac", "heart", "coronary", " mi ", "angina", "arrhythmia"]
    has_diabetes := containsSub t "diabetes"
    has_hypertension := kwAny t ["hypertension", "blood pressure", "htn"]
    has_renal := kwAny t ["kidney", "renal", "ckd", "nephro"]
    has_hepatic := kwAny t ["liver", "hepatic", "cirrhosis"]
    has_respiratory := kwAny t ["asthma", "copd", "respiratory", "pulmonary"]
    has_cancer := kwAny t ["cancer", "malignant", "tumor", "carcinoma"]
    has_neurological := kwAny t ["stroke", "epilepsy", "parkinson", "alzheimer"] }

/-- Result of `FeatureEngineer.extract_family_history_flags`. -/
structure FamilyFlags where
  family_history_cardiac : Bool
  family_history_diabetes : Bool
  family_history_cancer : Bool
  family_history_stroke : Bool
deriving DecidableEq

/-- `FeatureEngineer.extract_family_history_flags`. -/
def extract_family_history_flags (ds : List Disclosure) : FamilyFlags :=
  let t := family_text ds
  { family_history_cardiac := kwAny t ["cardiac", "heart", "coronary"]
    family_history_diabetes := containsSub t "diabetes"
    family_history_cancer := kwAny t ["cancer", "malignant"]
    family_history_stroke := containsSub t "stroke" }

/-- Result of `FeatureEngineer.count_disclosures`. -/
structure DisclosureCounts where
  condition_count : ℕ
  medication_count : ℕ
  family_history_count : ℕ
  surgery_count : ℕ
deriving DecidableEq

/-- `FeatureEngineer.count_disclosures`: one pass incrementing a counter
per matching type, i.e. a count of matching elements. -/
def count_disclosures (ds : List Disclosure) : DisclosureCounts :=
  { condition_count := ds.countP (fun d => d.disclosure_type == "condition")
    medication_count := ds.countP (fun d => d.disclosure_type == "medication")
    family_history_count := ds.countP (fun d => d.disclosure_type == "family_history")
    surgery_count := ds.countP (fun d => d.disclosure_type == "surgery") }

/-- The merged feature dictionary assembled by
`FeatureEngineer.prepare_features`, as a lookup defaulting to `0`
(`all_features.get(name, 0)` in the source).  Boolean flags are read back
as `1` / `0`, which is the value the final `np.float32` cast produces. -/
def all_features (a : Applicant) (sum_assured : ℚ) (ds : List Disclosure)
    (today : UWDate) : String → ℚ :=
  let bmi := pyOr a.bmi (calculate_bmi a.height_cm a.weight_kg)
  let age := pyOr a.age.join (calculate_age a.date_of_birth today)
  let cf := extract_condition_flags ds
  let ff := extract_family_history_flags ds
  let cnt := count_disclosures ds
  fun name =>
    if name = "age" then pyOrD age 35
    else if name = "bmi" then pyOrD bmi 24
    else if name = "smoking_status" then encode_smoking_status a.smoking_status
    else if name = "sum_assured" then sum_assured / 1000000
    else if name = "sum_assured_tier" then get_sum_assured_tier sum_assured
    else if name = "has_cardiac" then (if cf.has_cardiac then 1 else 0)
    else if name = "has_diabetes" then (if cf.has_diabetes then 1 else 0)
    else if name = "has_hypertension" then (if cf.has_hypertension then 1 else 0)
    else if name = "has_renal" then (if cf.has_renal then 1 else 0)
    else if name = "has_hepatic" then (if cf.has_hepatic then 1 else 0)
    else if name = "has_respiratory" then (if cf.has_respiratory then 1 else 0)
    else if name = "has_cancer" then (if cf.has_cancer then 1 else 0)
    else if name = "has_neurological" then (if cf.has_neurological then 1 else 0)
    else if name = "family_history_cardiac" then (if ff.family_history_cardiac then 1 else 0)
    else if name = "family_history_diabetes" then (if ff.family_history_diabetes then 1 else 0)
    else if name = "family_history_cancer" then (if ff.family_history_cancer then 1 else 0)
    else if name = "family_history_stroke" then (if ff.family_history_stroke then 1 else 0)
    else if name = "condition_count" then (cnt.condition_count : ℚ)
    else if name = "medication_count" then (cnt.medication_count : ℚ)
    else if name = "family_history_count" then (cnt.family_history_count : ℚ)
    else if name = "surgery_count" then (cnt.surgery_count : ℚ)
    else 0

/-- `FeatureEngineer.prepare_features`: the ordered vector over the given
schema. -/
def prepare_features (a : Applicant) (sum_assured : ℚ) (ds : List Disclosure)
    (feature_names : List String) (today : UWDate) : List ℚ :=
  feature_names.map (all_features a sum_assured ds today)

end FeatureEngineer

/-! ## DataLoader feature extraction (`app/training/data_loader.py`) -/

namespace DataLoader

/-- `DataLoader._extract_case_features`: the feature dictionary built for a
training row (keys it defines map to `some`, all others to `none`,
mirroring dict membership).  The `age` entry is `applicant.get("age", 35)`:
`35` only when the key is absent; a key present holding `None` stores
`None`. -/
def extract_case_features (a : Applicant) (sum_assured : ℚ)
    (ds : List Disclosure) : String → Option Val :=
  let cf := FeatureEngineer.extract_condition_flags ds
  let ff := FeatureEngineer.extract_family_history_flags ds
  let cnt := FeatureEngineer.count_disclosures ds
  let bmi := pyOr a.bmi (FeatureEngineer.calculate_bmi a.height_cm a.weight_kg)
  fun name =>
    if name = "age" then some ((pyGetNum a.age 35).elim Val.null Val.num)
    else if name = "bmi" then some (.num (pyOrD bmi 24))
    else if name = "sum_assured" then some (.num (sum_assured / 1000000))
    else if name = "smoking_status" then
      some (.num (FeatureEngineer.encode_smoking_status a.smoking_status))
    else if name = "has_cardiac" then some (.bool cf.has_cardiac)
    else if name = "has_diabetes" then some (.bool cf.has_diabetes)
    else if name = "has_hypertension" then some (.bool cf.has_hypertension)
    else if name = "has_renal" then some (.bool cf.has_renal)
    else if name = "has_hepatic" then some (.bool cf.has_hepatic)
    else if name = "has_respiratory" then some (.bool cf.has_respiratory)
    else if name = "has_cancer" then some (.bool cf.has_cancer)
    else if name = "has_neurological" then some (.bool cf.has_neurological)
    else if name = "family_history_cardiac" then some (.bool ff.family_history_cardiac)
    else if name = "family_history_diabetes" then some (.bool ff.family_history_diabetes)
    else if name = "family_history_cancer" then some (.bool ff.family_history_cancer)
    else if name = "family_history_stroke" then some (.bool ff.family_history_stroke)
    else if name = "condition_count" then some (.num (cnt.condition_count : ℚ))
    else if name = "medication_count" then some (.num (cnt.medication_count : ℚ))
    else if name = "family_history_count" then some (.num (cnt.family_history_count : ℚ))
    else if name = "surgery_count" then some (.num (cnt.surgery_count : ℚ))
    else none

end DataLoader

/-! ## InferenceService feature preparation (`app/services/inference_service.py`) -/

namespace InferenceService

/-- `InferenceService._prepare_complexity_features`: the feature dictionary
built for a serving-time request.  `existing_risk_factors` is accepted and
ignored by the source, so it is omitted.  Note the differences from the
training-row extraction: raw (string-or-None) smoking status, unscaled
`sum_assured`, unrounded recomputed BMI with no `24.0` default, `None`
(not `35`) for a missing age, and smaller keyword sets for the cardiac,
renal and family-cardiac flags. -/
def prepare_complexity_features (a : Applicant) (sum_assured : ℚ)
    (ds : List Disclosure) : String → Option Val :=
  let bmi0 : Val := a.bmi.elim Val.null Val.num
  let bmi : Val :=
    if ¬ truthyVal bmi0 ∧ truthyNum a.height_cm ∧ truthyNum a.weight_kg then
      let height_m := a.height_cm.getD 0 / 100
      .num (a.weight_kg.getD 0 / (height_m * height_m))
    else bmi0
  let conditions := ds.filter (fun d => d.disclosure_type == "condition")
  let medications := ds.filter (fun d => d.disclosure_type == "medication")
  let family_history := ds.filter (fun d => d.disclosure_type == "family_history")
  let condition_names :=
    String.intercalate " " (conditions.map (fun c => pyLower c.condition_name))
  let family_conditions :=
    String.intercalate " " (family_history.map (fun f => pyLower f.family_condition))
  fun name =>
    if name = "age" then some (a.age.join.elim Val.null Val.num)
    else if name = "bmi" then some bmi
    else if name = "smoking_status" then some (a.smoking_status.elim Val.null Val.str)
    else if name = "sum_assured" then some (.num sum_assured)
    else if name = "condition_count" then some (.num (conditions.length : ℚ))
    else if name = "medication_count" then some (.num (medications.length : ℚ))
    else if name = "has_cardiac" then
      some (.bool (kwAny condition_names ["cardiac", "heart", "coronary", " mi ", "angina"]))
    else if name = "has_diabetes" then
      some (.bool (containsSub condition_names "diabetes"))
    else if name = "has_hypertension" then
      some (.bool (kwAny condition_names ["hypertension", "blood pressure", "htn"]))
    else if name = "has_renal" then
      some (.bool (kwAny condition_names ["kidney", "renal", "ckd"]))
    else if name = "family_history_cardiac" then
      some (.bool (kwAny family_conditions ["cardiac", "heart"]))
    else if name = "family_history_diabetes" then
      some (.bool (containsSub family_conditions "diabetes"))
    else none

end InferenceService

/-! ## Model input dictionaries -/

/-- The feature dictionary consumed by `ComplexityModel.predict` /
`TestYieldModel.predict` (`features: Dict[str, Any]`).  The numeric
entries (age, bmi, sum assured, the two counts) are three-state: `none` =
key absent, `some none` = key present holding `None` (a state the serving
preparation reachably produces, on which the models' defaulted `.get`
reads yield `None` and the subsequent comparison, division or `float32`
cast raises `TypeError`), `some (some q)` = a stored number.  The string
and boolean entries are read only through `is not None`, falsiness or
string comparisons, for which a present `None` behaves exactly like an
absent key, so for them `none` covers both. -/
structure Features where
  age : Option (Option ℚ)
  bmi : Option (Option ℚ)
  smoking_status : Option String
  sum_assured : Option (Option ℚ)
  condition_count : Option (Option ℚ)
  medication_count : Option (Option ℚ)
  has_cardiac : Option Bool
  has_diabetes : Option Bool
  has_hypertension : Option Bool
  has_renal : Option Bool
  family_history_cardiac : Option Bool
  family_history_diabetes : Option Bool
deriving DecidableEq

/-- A ranked feature-contribution entry. -/
structure Contribution where
  feature : String
  value : Val
  contribution : ℚ
  direction : String
deriving DecidableEq

/-- Per-class probabilities in the fixed class order
ROUTINE, MODERATE, COMPLEX. -/
structure Probs where
  routine : ℚ
  moderate : ℚ
  complex : ℚ
deriving DecidableEq

/-! ## ComplexityModel (`app/models/complexity_model.py`) -/

/-- In-memory state of a `ComplexityModel`.  The calibrated classifier is
an opaque probability function (its only use is `predict_proba` on one
row). -/
structure ComplexityModel where
  model : Option (List ℚ → Probs)
  feature_names : List String
  version : String
  is_fitted : Bool

/-- A freshly constructed `ComplexityModel()`. -/
def ComplexityModel.init : ComplexityModel :=
  { model := none, feature_names := complexity_features, version := "v1", is_fitted := false }

/-- One entry of `ComplexityModel._extract_features`'s vector: the value
appended for a schema name (still possibly Python `None`, for a stored
`None` under age, bmi or a count).  The sum-assured entry divides the read
immediately and therefore raises `TypeError` right there on a stored
`None`. -/
def ComplexityModel.extract_feature_value (f : Features) (fname : String) :
    Except PyError (Option ℚ) :=
  if fname = "age" then .ok (pyGetNum f.age 35)
  else if fname = "bmi" then .ok (pyGetNum f.bmi 24)
  else if fname = "sum_assured" then
    match pyGetNum f.sum_assured 5000000 with
    | none => .error (.typeError "unsupported operand types for /: NoneType and int")
    | some sa => .ok (some (sa / 1000000))
  else if fname = "smoking_status" then
    .ok (some (let status := f.smoking_status.getD "never"
      if status = "current" then 2 else if status = "former" then 1 else 0))
  else if fname = "condition_count" then .ok (pyGetNum f.condition_count 0)
  else if fname = "medication_count" then .ok (pyGetNum f.medication_count 0)
  else if fname = "has_cardiac" then .ok (some (if f.has_cardiac.getD false then 1 else 0))
  else if fname = "has_diabetes" then .ok (some (if f.has_diabetes.getD false then 1 else 0))
  else if fname = "has_hypertension" then .ok (some (if f.has_hypertension.getD false then 1 else 0))
  else if fname = "has_renal" then .ok (some (if f.has_renal.getD false then 1 else 0))
  else if fname = "family_history_cardiac" then
    .ok (some (if f.family_history_cardiac.getD false then 1 else 0))
  else if fname = "family_history_diabetes" then
    .ok (some (if f.family_history_diabetes.getD false then 1 else 0))
  else .ok (some 0)

/-- `ComplexityModel._extract_features`: build the vector entries in
schema order (raising where an entry's own computation raises), then the
closing `np.array(..., dtype=np.float32)` cast raises `TypeError` when
any appended entry is Python `None`. -/
def ComplexityModel.extract_features (m : ComplexityModel) (f : Features) :
    Except PyError (List ℚ) := do
  let vals ← m.feature_names.mapM (ComplexityModel.extract_feature_value f)
  if vals.all Option.isSome then .ok (vals.map (fun v => v.getD 0))
  else .error (.typeError "float argument must be a real number, not NoneType")

/-- The additive risk score of `ComplexityModel._rule_based_prediction`
(sequential `score += ...` steps in source order).  The three defaulted
numeric reads feed a stored `None` unguarded into a `>=` comparison,
which raises `TypeError`; the non-raising increments between the reads
commute with a later raise, so the run is: raise at the first `None` read
(age, then bmi, then sum assured), otherwise the completed sum. -/
def ComplexityModel.rule_score (f : Features) : Except PyError ℚ :=
  match pyGetNum f.age 35, pyGetNum f.bmi 24, pyGetNum f.sum_assured 0 with
  | some age, some bmi, some sa =>
      let score : ℚ := 0
      let score := score + (if age ≥ 65 then 0.4 else if age ≥ 55 then 0.2 else 0)
      let score := score + (if bmi ≥ 35 then 0.35 else if bmi ≥ 30 then 0.2 else 0)
      let score := score + (if f.smoking_status = some "current" then 0.3 else 0)
      let score := score + (if f.has_cardiac.getD false then 0.5 else 0)
      let score := score + (if f.has_diabetes.getD false then 0.25 else 0)
      let score := score + (if f.has_renal.getD false then 0.4 else 0)
      .ok (score + (if sa ≥ 10000000 then 0.1 else 0))
  | none, _, _ =>
      .error (.typeError ">= not supported between NoneType and int")
  | _, none, _ =>
      .error (.typeError ">= not supported between NoneType and int")
  | _, _, none =>
      .error (.typeError ">= not supported between NoneType and int")

/-- `ComplexityModel._rule_based_prediction`: score → tier, fixed
probability triple, confidence `probs[tier]`, single rule-based
contribution entry; propagates the `TypeError` of a `None` numeric
read. -/
def ComplexityModel.rule_based_prediction (f : Features) :
    Except PyError (String × ℚ × Probs × List Contribution) :=
  (ComplexityModel.rule_score f).map fun score =>
    let tier_probs : String × Probs :=
      if score ≥ 0.6 then ("COMPLEX", ⟨0.1, 0.2, 0.7⟩)
      else if score ≥ 0.3 then ("MODERATE", ⟨0.2, 0.6, 0.2⟩)
      else ("ROUTINE", ⟨0.7, 0.2, 0.1⟩)
    let tier := tier_probs.1
    let probs := tier_probs.2
    let confidence :=
      if tier = "COMPLEX" then probs.complex
      else if tier = "MODERATE" then probs.moderate
      else probs.routine
    (tier, confidence, probs, [⟨"rule_based", .num score, score, "increases"⟩])

/-- `ComplexityModel._calculate_contributions` (fitted path): per-feature
weight table with feature-specific normalization, sorted by descending
absolute contribution, truncated to 8.  The stable sort of the source is
modelled by a stable insertion on the ≥ order. -/
def ComplexityModel.contribution_weight (fname : String) : ℚ :=
  if fname = "age" then 0.15
  else if fname = "bmi" then 0.10
  else if fname = "sum_assured" then 0.08
  else if fname = "smoking_status" then 0.12
  else if fname = "condition_count" then 0.10
  else if fname = "has_cardiac" then 0.15
  else if fname = "has_diabetes" then 0.10
  else if fname = "has_hypertension" then 0.08
  else if fname = "has_renal" then 0.08
  else if fname = "family_history_cardiac" then 0.04
  else 0.05

/-- `ComplexityModel._calculate_contributions`, one entry for the feature
at a position of the schema. -/
def ComplexityModel.contribution_entry (fname : String) (value : ℚ) : Contribution :=
  let weight := ComplexityModel.contribution_weight fname
  if fname = "age" then
    ⟨fname, .num value, weight * (value - 35) / 30, if value > 45 then "increases" else "neutral"⟩
  else if fname = "bmi" then
    ⟨fname, .num value, weight * (value - 24) / 10, if value > 30 then "increases" else "neutral"⟩
  else if fname = "has_cardiac" ∨ fname = "has_diabetes" ∨ fname = "has_renal" then
    ⟨fname, .num value, weight * value, if value > 0 then "increases" else "neutral"⟩
  else if fname = "smoking_status" then
    ⟨fname, .num value, weight * value / 2, if value > 0 then "increases" else "neutral"⟩
  else
    ⟨fname, .num value, weight * value * 0.1, if value > 0 then "increases" else "neutral"⟩

/-- `ComplexityModel._calculate_contributions`: build, sort by descending
`|contribution|`, keep the top 8.  (The `features.get(fname, value)`
display value is reported as the extracted numeric value; the claims under
verification do not inspect fitted-path contribution entries.) -/
def ComplexityModel.calculate_contributions (m : ComplexityModel) (f : Features)
    (X : List ℚ) : List Contribution :=
  let entries := (m.feature_names.zip X).map fun p =>
    ComplexityModel.contribution_entry p.1 p.2
  ((entries.mergeSort (fun x y => |x.contribution| ≥ |y.contribution|)).take 8)

/-- `ComplexityModel.predict`: rule-based fallback when unfitted,
otherwise calibrated probabilities with first-arg-max tier (numpy
`argmax` takes the first maximal index). -/
def ComplexityModel.predict (m : ComplexityModel) (f : Features) :
    Except PyError (String × ℚ × Probs × List Contribution) :=
  if ¬ m.is_fitted then ComplexityModel.rule_based_prediction f
  else
    match m.model with
    | none => .error (.typeError "NoneType has no predict_proba")
    | some clf => do
        let X ← m.extract_features f
        let probs := clf X
        let tier_conf : String × ℚ :=
          if probs.routine ≥ probs.moderate ∧ probs.routine ≥ probs.complex then
            ("ROUTINE", probs.routine)
          else if probs.moderate ≥ probs.complex then ("MODERATE", probs.moderate)
          else ("COMPLEX", probs.complex)
        .ok (tier_conf.1, tier_conf.2, probs, m.calculate_contributions f X)

/-! ## TestYieldModel (`app/models/test_yield_model.py`) -/

def SUPPORTED_TESTS : List String :=
  ["HBA1C", "LIPID", "ECG", "LFT", "RFT", "CBC", "URINE", "ECHO", "TMT"]

/-- `TestYieldModel.TEST_CONDITIONS` (`dict.get(test_code, [])`). -/
def TEST_CONDITIONS (t : String) : List String :=
  if t = "HBA1C" then ["diabetes", "metabolic"]
  else if t = "LIPID" then ["cardiac", "metabolic", "obesity"]
  else if t = "ECG" then ["cardiac", "hypertension"]
  else if t = "LFT" then ["hepatic", "alcohol", "medication"]
  else if t = "RFT" then ["renal", "diabetes", "hypertension"]
  else if t = "CBC" then []
  else if t = "URINE" then ["renal", "diabetes"]
  else if t = "ECHO" then ["cardiac"]
  else if t = "TMT" then ["cardiac"]
  else []

/-- In-memory state of a `TestYieldModel`.  `models` is the per-test
dictionary of regressors: outer `none` = key absent, inner `none` = key
present holding `None` (as `ModelManager.update_test_yield_model` can
store).  A regressor is an opaque row-to-value function. -/
structure TestYieldModel where
  models : String → Option (Option (List ℚ → ℚ))
  feature_names : List String
  version : String
  is_fitted : String → Bool

/-- A freshly constructed `TestYieldModel()`: empty model dict, every
supported flag `False` (the flag dict has exactly the supported keys, and
`is_fitted.get(t, False)` makes the total-function model faithful). -/
def TestYieldModel.init : TestYieldModel :=
  { models := fun _ => none, feature_names := test_yield_features,
    version := "v1", is_fitted := fun _ => false }

/-- `TestYieldModel.get_model_path`. -/
def TestYieldModel.get_model_path (m : TestYieldModel) (test_code : String)
    (version : Option String) : String :=
  let v := version.getD m.version
  model_dir ++ "/" ++ v ++ "/test_yield_" ++ pyLower test_code ++ ".joblib"

/-- `TestYieldModel.save`: refuses (ValueError) when `test_code` is not a
key of the model dict, otherwise persists and returns the path.  Note the
guard is dict membership, not membership in `SUPPORTED_TESTS`. -/
def TestYieldModel.save (m : TestYieldModel) (test_code : String)
    (version : Option String) : Except PyError String :=
  if (m.models test_code).isNone then
    .error (.valueError ("No model for test " ++ test_code))
  else .ok (m.get_model_path test_code version)

/-- `TestYieldModel.fit`: unsupported-test guard first, then the LightGBM
fit (the learned regressor produced from `X`, `y` is the opaque `trained`
argument) and the flag/dict updates.  Metric computation is elided. -/
def TestYieldModel.fit (m : TestYieldModel) (test_code : String)
    (X : List (List ℚ)) (y : List ℚ) (trained : List ℚ → ℚ) :
    Except PyError TestYieldModel :=
  if test_code ∈ SUPPORTED_TESTS then
    .ok { m with
      models := fun t => if t = test_code then some (some trained) else m.models t,
      is_fitted := fun t => if t = test_code then true else m.is_fitted t }
  else .error (.valueError ("Unsupported test: " ++ test_code))

/-- `TestYieldModel._has_related_condition`: sequential flag checks, then
the obesity / metabolic branches compare `features.get("bmi", 24) >= 30`
— a comparison that raises `TypeError` on a stored `None`; the bmi read
is reached exactly when the relevant-condition list names obesity, or
names metabolic with a falsy diabetes flag (Python `and` / `or`
short-circuiting). -/
def TestYieldModel.has_related_condition (test_code : String) (f : Features) :
    Except PyError Bool :=
  let rel := TEST_CONDITIONS test_code
  if rel.contains "cardiac" && f.has_cardiac.getD false then .ok true
  else if rel.contains "diabetes" && f.has_diabetes.getD false then .ok true
  else if rel.contains "renal" && f.has_renal.getD false then .ok true
  else if rel.contains "hypertension" && f.has_hypertension.getD false then .ok true
  else if rel.contains "obesity" || (rel.contains "metabolic" && ! f.has_diabetes.getD false) then
    match pyGetNum f.bmi 24 with
    | none =>
        .error (.typeError ">= not supported between NoneType and int")
    | some bmi =>
        .ok ((rel.contains "obesity" && decide (bmi ≥ 30)) ||
          (rel.contains "metabolic" && (f.has_diabetes.getD false || decide (bmi ≥ 30))))
  else .ok (rel.contains "metabolic" && f.has_diabetes.getD false)

/-- `TestYieldModel._calculate_confidence`: feature-completeness score.
A field counts exactly when its key is present with a non-`None` value
(`f in features and features[f] is not None`); for the merged
string/boolean fields `isSome` is that test, for the three-state numeric
fields it is `join.isSome`. -/
def TestYieldModel.calculate_confidence (f : Features) : ℚ :=
  let score : ℚ := 0.5
  let score := score + (if f.age.join.isSome then 0.15 else 0)
  let score := score + (if f.bmi.join.isSome then 0.15 else 0)
  let score := score + (if f.smoking_status.isSome then 0.05 else 0)
  let score := score + (if f.has_diabetes.isSome then 0.05 else 0)
  let score := score + (if f.has_cardiac.isSome then 0.05 else 0)
  min 0.95 score

/-- `TestYieldModel._get_recommendation`. -/
def TestYieldModel.get_recommendation (yield_prob : ℚ) : String :=
  if yield_prob ≥ 0.6 then "recommended"
  else if yield_prob ≥ 0.3 then "optional"
  else "low_yield"

/-- One entry of `TestYieldModel._extract_features`'s vector: the value
appended for a schema name (still possibly Python `None`, for a stored
`None` under age, bmi or the condition count).  The relevance entry runs
`_has_related_condition` (which can raise on a stored `None` bmi) and the
tier entry compares the sum-assured read immediately, raising `TypeError`
on a stored `None`. -/
def TestYieldModel.extract_feature_value (test_code : String) (f : Features)
    (fname : String) : Except PyError (Option ℚ) :=
  if fname = "age" then .ok (pyGetNum f.age 35)
  else if fname = "bmi" then .ok (pyGetNum f.bmi 24)
  else if fname = "smoking_status" then
    .ok (some (let status := f.smoking_status.getD "never"
      if status = "current" then 2 else if status = "former" then 1 else 0))
  else if fname = "condition_count" then .ok (pyGetNum f.condition_count 0)
  else if fname = "has_condition_related" then
    (TestYieldModel.has_related_condition test_code f).map
      (fun related => some (if related then 1 else 0))
  else if fname = "sum_assured_tier" then
    match pyGetNum f.sum_assured 0 with
    | none =>
        .error (.typeError ">= not supported between NoneType and int")
    | some sa =>
        .ok (some (if sa ≥ 10000000 then 3 else if sa ≥ 5000000 then 2
          else if sa ≥ 2500000 then 1 else 0))
  else .ok (some 0)

/-- `TestYieldModel._extract_features`: build the vector entries in
schema order, then the closing `np.array(..., dtype=np.float32)` cast
raises `TypeError` when any appended entry is Python `None`. -/
def TestYieldModel.extract_features (m : TestYieldModel) (test_code : String)
    (f : Features) : Except PyError (List ℚ) := do
  let vals ← m.feature_names.mapM (TestYieldModel.extract_feature_value test_code f)
  if vals.all Option.isSome then .ok (vals.map (fun v => v.getD 0))
  else .error (.typeError "float argument must be a real number, not NoneType")

/-- `TestYieldModel._calculate_contributions`: relevance entry, then the
age and bmi threshold entries — both defaulted reads compared unguarded,
raising `TypeError` on a stored `None` (age first, the bmi comparison is
the left operand of the `and` so it is always evaluated). -/
def TestYieldModel.calculate_contributions (test_code : String) (f : Features)
    (X : List ℚ) : Except PyError (List Contribution) := do
  let related ← TestYieldModel.has_related_condition test_code f
  let c0 : List Contribution :=
    if related then [⟨"related_condition", .bool true, 0.3, "increases"⟩] else []
  match pyGetNum f.age 35, pyGetNum f.bmi 24 with
  | some age, some bmi =>
      let c1 : List Contribution :=
        if age ≥ 45 then
          [⟨"age", .num age, 0.1 * (age - 35) / 30, "increases"⟩]
        else []
      let c2 : List Contribution :=
        if bmi ≥ 30 ∧ (test_code = "LIPID" ∨ test_code = "HBA1C" ∨ test_code = "ECG") then
          [⟨"bmi", .num bmi, 0.15, "increases"⟩]
        else []
      let c3 : List Contribution :=
        if f.smoking_status = some "current" ∧
            (test_code = "ECG" ∨ test_code = "LIPID" ∨ test_code = "LFT") then
          [⟨"smoking_status", .str "current", 0.12, "increases"⟩]
        else []
      .ok (c0 ++ c1 ++ c2 ++ c3)
  | none, _ =>
      .error (.typeError ">= not supported between NoneType and int")
  | _, none =>
      .error (.typeError ">= not supported between NoneType and int")

/-- `TestYieldModel._rule_based_prediction`: additive fallback yield,
capped at 0.95, with fixed confidence 0.7.  The relevance check and the
defaulted age / bmi reads raise `TypeError` on a stored `None` (the bmi
comparison is the left operand of its `and`, so it is always
evaluated). -/
def TestYieldModel.rule_based_prediction (test_code : String) (f : Features) :
    Except PyError (ℚ × ℚ × String × List Contribution) := do
  let related ← TestYieldModel.has_related_condition test_code f
  match pyGetNum f.age 35, pyGetNum f.bmi 24 with
  | some age, some bmi =>
      let base : ℚ := 0.3
      let base := base + (if related then 0.35 else 0)
      let base := base + (if age ≥ 55 then 0.15 else if age ≥ 45 then 0.08 else 0)
      let base := base +
        (if bmi ≥ 30 ∧ (test_code = "HBA1C" ∨ test_code = "LIPID") then 0.12 else 0)
      let base := base +
        (if f.smoking_status = some "current" ∧
            (test_code = "ECG" ∨ test_code = "LIPID" ∨ test_code = "LFT") then 0.1 else 0)
      let yield_prob := min 0.95 base
      .ok (yield_prob, 0.7, TestYieldModel.get_recommendation yield_prob,
        [⟨"rule_based", .num yield_prob, yield_prob, "increases"⟩])
  | none, _ =>
      .error (.typeError ">= not supported between NoneType and int")
  | _, none =>
      .error (.typeError ">= not supported between NoneType and int")

/-- `TestYieldModel.predict`: unsupported-test guard, fallback when
unfitted, otherwise extract the vector, clamp the regressor output to
`[0,1]` and attach the completeness confidence, recommendation and
contributions (each step propagating its `TypeError`, in source
order). -/
def TestYieldModel.predict (m : TestYieldModel) (test_code : String) (f : Features) :
    Except PyError (ℚ × ℚ × String × List Contribution) :=
  if test_code ∈ SUPPORTED_TESTS then
    if ¬ m.is_fitted test_code then TestYieldModel.rule_based_prediction test_code f
    else
      match m.models test_code with
      | some (some reg) => do
          let X ← m.extract_features test_code f
          let yield_prob := max 0 (min 1 (reg X))
          let contribs ← TestYieldModel.calculate_contributions test_code f X
          .ok (yield_prob, TestYieldModel.calculate_confidence f,
            TestYieldModel.get_recommendation yield_prob, contribs)
      | some none => .error (.typeError "NoneType has no predict")
      | none => .error (.keyError test_code)
  else .error (.valueError ("Unsupported test: " ++ test_code))

/-! ## ModelManager (`app/services/model_manager.py`) -/

/-- In-memory state of the `ModelManager`.  The constructor always
populates both model references via `_load_models`; the `Option` mirrors
the declared type. -/
structure ModelManager where
  complexity_model : Option ComplexityModel
  test_yield_model : Option TestYieldModel
  current_version : String

/-- `ModelManager.update_complexity_model` (hot-swap). -/
def ModelManager.update_complexity_model (mgr : ModelManager)
    (model : ComplexityModel) : ModelManager :=
  { mgr with complexity_model := some model }

/-- `ModelManager.update_test_yield_model`: when a bank is loaded, store
`model.models.get(test_code)` (which is Python `None` both when the key is
absent and when it holds `None`, i.e. `Option.join`) under `test_code` and
set that test's fitted flag to `True`; no-op when no bank is loaded. -/
def ModelManager.update_test_yield_model (mgr : ModelManager) (test_code : String)
    (model : TestYieldModel) : ModelManager :=
  match mgr.test_yield_model with
  | none => mgr
  | some bank =>
      { mgr with test_yield_model := some { bank with
          models := fun t =>
            if t = test_code then some (model.models test_code).join else bank.models t,
          is_fitted := fun t => if t = test_code then true else bank.is_fitted t } }

/-! ## Trainer (`app/training/trainer.py`)

The external parts of a run (backend fetches, dataset assembly, the
LightGBM fit itself, the timestamp) enter as parameters: `sampleCount`
abstracts `len(X)` of the assembled dataset, `fitted` / `fitOk` abstract
the outcome of the external fit+save calls, `genVersion` abstracts
`_generate_version()`'s timestamp tag.  The orchestration and branching
logic is translated literally. -/

/-- Observable side effects of a complexity training run. -/
inductive TrainEffect where
  | fit_model
  | save_model (path : String)
  | hot_swap
deriving DecidableEq

/-- Outcome record of `Trainer.train_complexity_model`. -/
structure ComplexityTrainResult where
  status : String
  error : Option String
  samples_used : Option ℕ
  version : Option String
deriving DecidableEq

/-- `Trainer.train_complexity_model`: empty-data and insufficient-data
guards return a failed result before any fit/save/swap; otherwise fit,
version, save, hot-swap and report.  Returns the result record, the
manager state after the run and the list of effects performed. -/
def Trainer.train_complexity_model (mgr : ModelManager) (sampleCount : ℕ)
    (force : Bool) (fitted : ComplexityModel) (genVersion : String)
    (new_version : Option String) :
    ComplexityTrainResult × ModelManager × List TrainEffect :=
  if sampleCount = 0 then
    ({ status := "failed", error := some "No training data available",
       samples_used := none, version := none }, mgr, [])
  else if sampleCount < min_training_samples ∧ ¬ force then
    ({ status := "failed",
       error := some ("Insufficient training samples: " ++ toString sampleCount ++
         " < " ++ toString min_training_samples),
       samples_used := none, version := none }, mgr, [])
  else
    let version := new_version.getD genVersion
    let model := { fitted with version := version }
    let path := model_dir ++ "/" ++ version ++ "/complexity_model.joblib"
    let mgr' := mgr.update_complexity_model model
    ({ status := "completed", error := none, samples_used := some sampleCount,
       version := some version }, mgr',
     [.fit_model, .save_model path, .hot_swap])

/-- Per-test outcome record of `Trainer.train_test_yield_model`. -/
structure TestTrainResult where
  test_code : String
  status : String
  reason : Option String
  samples_used : Option ℕ
deriving DecidableEq

/-- `Trainer.train_test_yield_model` for one test code: skip on empty
data, skip when below `min_training_samples // 2` unless forced, then fit
and save (`fitOk` abstracts whether the external fit+save raised). -/
def Trainer.train_test_yield_model (test_code : String) (sampleCount : ℕ)
    (force : Bool) (fitOk : Bool) : TestTrainResult :=
  if sampleCount = 0 then
    { test_code := test_code, status := "skipped",
      reason := some "No training data", samples_used := none }
  else if sampleCount < min_training_samples / 2 ∧ ¬ force then
    { test_code := test_code, status := "skipped",
      reason := some ("Insufficient samples: " ++ toString sampleCount ++
        " < " ++ toString (min_training_samples / 2)), samples_used := none }
  else if fitOk then
    { test_code := test_code, status := "completed", reason := none,
      samples_used := some sampleCount }
  else
    { test_code := test_code, status := "failed", reason := none,
      samples_used := none }

/-- Outcome record of `Trainer.train_all_test_yield_models`. -/
structure TestYieldRunResult where
  status : String
  models : List TestTrainResult
  version : Option String
  error : Option String
deriving DecidableEq

/-- `Trainer.train_all_test_yield_models`: one shared dataset/version, an
independent per-test run for each supported code, and an overall status of
`"completed"` exactly when at least one per-test run completed. -/
def Trainer.train_all_test_yield_models (counts : String → ℕ) (force : Bool)
    (fitOk : String → Bool) (genVersion : String) : TestYieldRunResult :=
  let models := SUPPORTED_TESTS.map fun t =>
    Trainer.train_test_yield_model t (counts t) force (fitOk t)
  let succeeded := models.countP (fun r => r.status == "completed")
  if succeeded > 0 then
    { status := "completed", models := models, version := some genVersion, error := none }
  else
    { status := "failed", models := models, version := none,
      error := some "No models could be trained" }

/-! ## Concrete inputs used by witnesses and counterexamples -/

/-- A feature dictionary with every key absent. -/
def noFeatures : Features :=
  { age := none, bmi := none, smoking_status := none, sum_assured := none,
    condition_count := none, medication_count := none, has_cardiac := none,
    has_diabetes := none, has_hypertension := none, has_renal := none,
    family_history_cardiac := none, family_history_diabetes := none }

/-- The spec's worked end-to-end scenario, as seen by `ComplexityModel.predict`:
age 60, bmi 32, current smoker, one cardiac condition disclosure, sum
assured 12,000,000. -/
def scenarioFeatures : Features :=
  { age := some (some 60), bmi := some (some 32), smoking_status := some "current",
    sum_assured := some (some 12000000), condition_count := some (some 1),
    medication_count := some (some 0),
    has_cardiac := some true, has_diabetes := some false, has_hypertension := some false,
    has_renal := some false, family_history_cardiac := some false,
    family_history_diabetes := some false }

/-- A reachable serving-time feature map: the request schema's applicant
fields are all optional with default `None` and `model_dump()` keeps
them, so `_prepare_complexity_features` emits a map whose `age` and
`bmi` keys are present holding `None`. -/
def presentNoneFeatures : Features :=
  { noFeatures with age := some none, bmi := some none }

/-! ## C2: unfitted ComplexityModel rule-based prediction -/

/-- C2 counterexample: an unfitted `ComplexityModel.predict` does not
return the rule-based result for every feature map.  On the reachable
serving-time map whose `age` key is present holding `None`,
`features.get("age", 35)` yields `None` and the first threshold
comparison raises `TypeError` instead of producing a prediction. -/
theorem C2_counterexample :
    ComplexityModel.init.is_fitted = false ∧
    ComplexityModel.init.predict presentNoneFeatures =
      .error (.typeError
        ">= not supported between NoneType and int") :=
  ⟨rfl, by decide⟩

/-- C2 (amended): for every feature map whose `age`, `bmi` and
`sum_assured` keys are not present holding `None` — in particular every
map whose keys are absent or hold numbers — an unfitted
`ComplexityModel.predict` returns the rule-based result: the risk score
is the sum of the listed increments (age ≥ 65 ↦ 0.4 else age ≥ 55 ↦ 0.2;
bmi ≥ 35 ↦ 0.35 else bmi ≥ 30 ↦ 0.2; current smoking ↦ 0.3; cardiac 0.5,
diabetes 0.25, renal 0.4; sum assured ≥ 10,000,000 ↦ 0.1, over the
defaults age 35, bmi 24, sum assured 0), mapped by score ≥ 0.6 to
COMPLEX, ≥ 0.3 to MODERATE, else ROUTINE with that tier's fixed
probability triple and matching confidence; a map holding `None` under
one of those keys instead raises `TypeError` (see the counterexample).
The scenario input (age 60, bmi 32, current smoker, cardiac condition,
sum assured 12,000,000) yields tier COMPLEX, confidence 0.7 and
probabilities {ROUTINE: 0.1, MODERATE: 0.2, COMPLEX: 0.7}. -/
theorem C2_unfitted_rule_based (m : ComplexityModel) (f : Features)
    (h : m.is_fitted = false) (ha : f.age ≠ some none)
    (hb : f.bmi ≠ some none) (hs : f.sum_assured ≠ some none) :
    ComplexityModel.rule_score f = .ok (
      (if pyNumD f.age 35 ≥ 65 then 0.4 else if pyNumD f.age 35 ≥ 55 then 0.2 else 0) +
      (if pyNumD f.bmi 24 ≥ 35 then 0.35 else if pyNumD f.bmi 24 ≥ 30 then 0.2 else 0) +
      (if f.smoking_status = some "current" then 0.3 else 0) +
      (if f.has_cardiac.getD false then 0.5 else 0) +
      (if f.has_diabetes.getD false then 0.25 else 0) +
      (if f.has_renal.getD false then 0.4 else 0) +
      (if pyNumD f.sum_assured 0 ≥ 10000000 then 0.1 else 0)) ∧
    (∀ score : ℚ, ComplexityModel.rule_score f = .ok score →
      m.predict f = .ok
        (if score ≥ 0.6 then
          ("COMPLEX", 0.7, (⟨0.1, 0.2, 0.7⟩ : Probs),
            [⟨"rule_based", .num score, score, "increases"⟩])
         else if score ≥ 0.3 then
          ("MODERATE", 0.6, (⟨0.2, 0.6, 0.2⟩ : Probs),
            [⟨"rule_based", .num score, score, "increases"⟩])
         else
          ("ROUTINE", 0.7, (⟨0.7, 0.2, 0.1⟩ : Probs),
            [⟨"rule_based", .num score, score, "increases"⟩]))) ∧
    m.predict scenarioFeatures =
      .ok ("COMPLEX", 0.7, (⟨0.1, 0.2, 0.7⟩ : Probs),
        [⟨"rule_based", .num 1.3, 1.3, "increases"⟩]) := by
  refine ⟨?_, ?_, ?_⟩
  · simp only [ComplexityModel.rule_score, pyGetNum_of_ne f.age 35 ha,
      pyGetNum_of_ne f.bmi 24 hb, pyGetNum_of_ne f.sum_assured 0 hs]
    congr 1
    ring
  · intro score hsc
    have hp : m.predict f = ComplexityModel.rule_based_prediction f := by
      simp [ComplexityModel.predict, h]
    rw [hp]
    simp only [ComplexityModel.rule_based_prediction, hsc, Except.map]
    split_ifs <;> simp_all
  · have hp : m.predict scenarioFeatures =
        ComplexityModel.rule_based_prediction scenarioFeatures := by
      simp [ComplexityModel.predict, h]
    rw [hp]
    have hsc : ComplexityModel.rule_score scenarioFeatures = .ok 1.3 := by
      simp only [ComplexityModel.rule_score, scenarioFeatures, pyGetNum]
      norm_num
    simp only [ComplexityModel.rule_based_prediction, hsc, Except.map]
    norm_num

/-- Witness for C2 at a concrete unfitted model and the scenario input. -/
theorem C2_unfitted_rule_based_witness :
    (ComplexityModel.init.is_fitted = false ∧
     scenarioFeatures.age ≠ some none ∧ scenarioFeatures.bmi ≠ some none ∧
     scenarioFeatures.sum_assured ≠ some none) ∧
    ComplexityModel.init.predict scenarioFeatures =
      .ok ("COMPLEX", 0.7, (⟨0.1, 0.2, 0.7⟩ : Probs),
        [⟨"rule_based", .num 1.3, 1.3, "increases"⟩]) :=
  ⟨⟨rfl, by decide, by decide, by decide⟩,
    (C2_unfitted_rule_based ComplexityModel.init scenarioFeatures rfl
      (by decide) (by decide) (by decide)).2.2⟩

/-! ## C3: full test-yield run, per-test outcomes and overall status -/

/-- A single test-yield training step reports its own test code. -/
theorem train_test_yield_model_code (t : String) (c : ℕ) (force fitOk : Bool) :
    (Trainer.train_test_yield_model t c force fitOk).test_code = t := by
  unfold Trainer.train_test_yield_model
  split_ifs <;> rfl

/-- A single test-yield training step ends completed, skipped or failed. -/
theorem train_test_yield_model_status (t : String) (c : ℕ) (force fitOk : Bool) :
    (Trainer.train_test_yield_model t c force fitOk).status = "completed" ∨
    (Trainer.train_test_yield_model t c force fitOk).status = "skipped" ∨
    (Trainer.train_test_yield_model t c force fitOk).status = "failed" := by
  unfold Trainer.train_test_yield_model
  split_ifs <;> simp

/-- The per-test results of a full run, in supported-test order. -/
theorem train_all_models_eq (counts : String → ℕ) (force : Bool)
    (fitOk : String → Bool) (v : String) :
    (Trainer.train_all_test_yield_models counts force fitOk v).models =
      SUPPORTED_TESTS.map
        (fun t => Trainer.train_test_yield_model t (counts t) force (fitOk t)) := by
  simp only [Trainer.train_all_test_yield_models]
  split <;> rfl

/-- C3: a full test-yield training run records one outcome per supported
test code (nine outcomes, each completed, skipped or failed, keyed in
supported-test order), the run status is "completed" exactly when at
least one per-test outcome is "completed"; and in the scenario where only
HBA1C, LIPID and ECG have 60 samples (≥ the per-test minimum of 50) and
the six other codes have none, the run reports status "completed" with
exactly 3 per-test results completed and 6 skipped. -/
theorem C3_partial_training_resilience (counts : String → ℕ) (force : Bool)
    (fitOk : String → Bool) (v : String) :
    ((Trainer.train_all_test_yield_models counts force fitOk v).models.map
        TestTrainResult.test_code = SUPPORTED_TESTS) ∧
    (∀ r ∈ (Trainer.train_all_test_yield_models counts force fitOk v).models,
        r.status = "completed" ∨ r.status = "skipped" ∨ r.status = "failed") ∧
    ((Trainer.train_all_test_yield_models counts force fitOk v).status = "completed" ↔
      ∃ r ∈ (Trainer.train_all_test_yield_models counts force fitOk v).models,
        r.status = "completed") ∧
    ((Trainer.train_all_test_yield_models
        (fun t => if t = "HBA1C" ∨ t = "LIPID" ∨ t = "ECG" then 60 else 0)
        false (fun _ => true) "v20260101").status = "completed" ∧
     (Trainer.train_all_test_yield_models
        (fun t => if t = "HBA1C" ∨ t = "LIPID" ∨ t = "ECG" then 60 else 0)
        false (fun _ => true) "v20260101").models.countP
          (fun r => r.status == "completed") = 3 ∧
     (Trainer.train_all_test_yield_models
        (fun t => if t = "HBA1C" ∨ t = "LIPID" ∨ t = "ECG" then 60 else 0)
        false (fun _ => true) "v20260101").models.countP
          (fun r => r.status == "skipped") = 6) := by
  refine ⟨?_, ?_, ?_, by decide, by decide, by decide⟩
  · rw [train_all_models_eq, List.map_map]
    have : (TestTrainResult.test_code ∘
        fun t => Trainer.train_test_yield_model t (counts t) force (fitOk t)) = id := by
      funext t
      exact train_test_yield_model_code t (counts t) force (fitOk t)
    rw [this, List.map_id]
  · intro r hr
    rw [train_all_models_eq] at hr
    obtain ⟨t, _, rfl⟩ := List.mem_map.mp hr
    exact train_test_yield_model_status t (counts t) force (fitOk t)
  · rw [train_all_models_eq]
    simp only [Trainer.train_all_test_yield_models]
    split
    · rename_i hpos
      simp only [true_iff]
      have := List.countP_pos.mp hpos
      obtain ⟨r, hr, hp⟩ := this
      exact ⟨r, hr, by simpa using hp⟩
    · rename_i hneg
      constructor
      · intro hcon
        exact absurd hcon (by simp)
      · intro ⟨r, hr, hs⟩
        exact absurd (List.countP_pos.mpr ⟨r, hr, by simpa using hs⟩) hneg

/-! ## C4: insufficient data fails the complexity run without touching models -/

/-- C4: a complexity training run whose assembled sample count is below
the configured minimum and which is not forced returns a failed result
whose error names the lack of data ("No training data available" when the
dataset is empty, otherwise "Insufficient training samples: n < 100") —
it does not raise — and performs no fit, no save and no hot-swap: the
ModelManager state is returned unchanged. -/
theorem C4_insufficient_data_preserves_models (mgr : ModelManager) (n : ℕ)
    (force : Bool) (fitted : ComplexityModel) (genVersion : String)
    (new_version : Option String)
    (hn : n < min_training_samples) (hf : force = false) :
    (Trainer.train_complexity_model mgr n force fitted genVersion new_version).1.status
        = "failed" ∧
    ((Trainer.train_complexity_model mgr n force fitted genVersion new_version).1.error
        = some "No training data available" ∨
     (Trainer.train_complexity_model mgr n force fitted genVersion new_version).1.error
        = some ("Insufficient training samples: " ++ toString n ++ " < " ++
            toString min_training_samples)) ∧
    (Trainer.train_complexity_model mgr n force fitted genVersion new_version).2.1 = mgr ∧
    (Trainer.train_complexity_model mgr n force fitted genVersion new_version).2.2 = [] := by
  subst hf
  by_cases h0 : n = 0
  · simp [Trainer.train_complexity_model, h0]
  · have hbranch : ¬ n = 0 := h0
    simp [Trainer.train_complexity_model, hbranch, hn]

/-- Witness for C4 at a concrete manager, sample count 5, not forced. -/
theorem C4_insufficient_data_preserves_models_witness :
    5 < min_training_samples ∧
    ((Trainer.train_complexity_model
        ⟨some ComplexityModel.init, some TestYieldModel.init, "v1"⟩ 5 false
        ComplexityModel.init "v20260101" none).1.status = "failed" ∧
     ((Trainer.train_complexity_model
        ⟨some ComplexityModel.init, some TestYieldModel.init, "v1"⟩ 5 false
        ComplexityModel.init "v20260101" none).1.error
          = some "No training data available" ∨
      (Trainer.train_complexity_model
        ⟨some ComplexityModel.init, some TestYieldModel.init, "v1"⟩ 5 false
        ComplexityModel.init "v20260101" none).1.error
          = some ("Insufficient training samples: " ++ toString 5 ++ " < " ++
              toString min_training_samples)) ∧
     (Trainer.train_complexity_model
        ⟨some ComplexityModel.init, some TestYieldModel.init, "v1"⟩ 5 false
        ComplexityModel.init "v20260101" none).2.1
          = ⟨some ComplexityModel.init, some TestYieldModel.init, "v1"⟩ ∧
     (Trainer.train_complexity_model
        ⟨some ComplexityModel.init, some TestYieldModel.init, "v1"⟩ 5 false
        ComplexityModel.init "v20260101" none).2.2 = []) :=
  ⟨by decide, C4_insufficient_data_preserves_models
    ⟨some ComplexityModel.init, some TestYieldModel.init, "v1"⟩ 5 false
    ComplexityModel.init "v20260101" none (by decide) rfl⟩

/-! ## C7: the predicted yield always lies in [0, 1] -/

/-- Any value the fallback actually returns has its yield in `[0, 1]`. -/
theorem rule_based_yield_bounds (t : String) (f : Features)
    (r : ℚ × ℚ × String × List Contribution)
    (h : TestYieldModel.rule_based_prediction t f = .ok r) :
    0 ≤ r.1 ∧ r.1 ≤ 1 := by
  unfold TestYieldModel.rule_based_prediction at h
  cases hrel : TestYieldModel.has_related_condition t f with
  | error e =>
      rw [hrel] at h
      simp [Bind.bind, Except.bind] at h
  | ok related =>
      rw [hrel] at h
      simp only [Bind.bind, Except.bind] at h
      split at h
      · simp only [Except.ok.injEq] at h
        subst h
        refine ⟨le_min (by norm_num) ?_, le_trans (min_le_left _ _) (by norm_num)⟩
        split_ifs <;> norm_num
      · simp at h
      · simp at h

/-- C7: for every supported test code, every model state and every
feature map, a successful `TestYieldModel.predict` returns a yield in
`[0, 1]` — via the explicit clamp on the fitted path (whatever the raw
regressor output) and via the capped non-negative additive score on the
fallback path. -/
theorem C7_yield_clamp (m : TestYieldModel) (t : String) (f : Features)
    (r : ℚ × ℚ × String × List Contribution)
    (ht : t ∈ SUPPORTED_TESTS) (hp : m.predict t f = .ok r) :
    0 ≤ r.1 ∧ r.1 ≤ 1 := by
  unfold TestYieldModel.predict at hp
  rw [if_pos ht] at hp
  by_cases hfit : m.is_fitted t
  · rw [if_neg (by simp [hfit])] at hp
    cases hm : m.models t with
    | none => rw [hm] at hp; exact absurd hp (by simp)
    | some inner =>
        cases inner with
        | none => rw [hm] at hp; exact absurd hp (by simp)
        | some reg =>
            rw [hm] at hp
            cases hX : m.extract_features t f with
            | error e =>
                rw [hX] at hp
                simp [Bind.bind, Except.bind] at hp
            | ok X =>
                rw [hX] at hp
                simp only [Bind.bind, Except.bind] at hp
                cases hC : TestYieldModel.calculate_contributions t f X with
                | error e =>
                    rw [hC] at hp
                    simp [Bind.bind, Except.bind] at hp
                | ok C =>
                    rw [hC] at hp
                    simp only [Bind.bind, Except.bind, Pure.pure, Except.pure,
                      Except.ok.injEq] at hp
                    subst hp
                    constructor
                    · exact le_max_left 0 _
                    · exact max_le (by norm_num)
                        (le_trans (min_le_left _ _) (by norm_num))
  · rw [if_pos (by simp [hfit])] at hp
    exact rule_based_yield_bounds t f r hp

/-- Witness for C7: the unfitted bank on CBC with an empty feature map. -/
theorem C7_yield_clamp_witness :
    ("CBC" ∈ SUPPORTED_TESTS ∧
     TestYieldModel.init.predict "CBC" noFeatures =
       .ok (0.3, 0.7, "optional", [⟨"rule_based", .num 0.3, 0.3, "increases"⟩])) ∧
    (0 ≤ ((0.3 : ℚ), (0.7 : ℚ), "optional",
        [(⟨"rule_based", .num 0.3, 0.3, "increases"⟩ : Contribution)]).1 ∧
     ((0.3 : ℚ), (0.7 : ℚ), "optional",
        [(⟨"rule_based", .num 0.3, 0.3, "increases"⟩ : Contribution)]).1 ≤ 1) :=
  by
  have hpred : TestYieldModel.init.predict "CBC" noFeatures =
      .ok (0.3, 0.7, "optional", [⟨"rule_based", .num 0.3, 0.3, "increases"⟩]) := by
    simp only [TestYieldModel.predict, TestYieldModel.init,
      TestYieldModel.rule_based_prediction, TestYieldModel.has_related_condition,
      TestYieldModel.get_recommendation, noFeatures, TEST_CONDITIONS, SUPPORTED_TESTS,
      pyGetNum, Bind.bind, Except.bind]
    simp
    norm_num [min_def]
  exact ⟨⟨by decide, hpred⟩,
    C7_yield_clamp TestYieldModel.init "CBC" noFeatures _ (by decide) hpred⟩

/-! ## C10: the test-yield hot-swap is frame-preserving on other tests -/

/-- C10: when a bank is loaded, `ModelManager.update_test_yield_model t m`
touches only test code `t`: the complexity model, version and every other
test code's regressor entry and fitted flag are unchanged; `is_fitted t`
becomes `True` unconditionally; and the stored regressor for `t` is
`m.models.get(t)` — in particular `None` (a present key holding no
regressor) whenever `m` has no entry for `t`. -/
theorem C10_update_test_yield_model_frame (mgr : ModelManager)
    (bank : TestYieldModel) (t : String) (m : TestYieldModel)
    (h : mgr.test_yield_model = some bank) :
    ∃ bank',
      (mgr.update_test_yield_model t m).test_yield_model = some bank' ∧
      (mgr.update_test_yield_model t m).complexity_model = mgr.complexity_model ∧
      (mgr.update_test_yield_model t m).current_version = mgr.current_version ∧
      bank'.is_fitted t = true ∧
      bank'.models t = some (m.models t).join ∧
      (m.models t = none → bank'.models t = some none) ∧
      (∀ t', t' ≠ t →
        bank'.models t' = bank.models t' ∧ bank'.is_fitted t' = bank.is_fitted t') ∧
      bank'.feature_names = bank.feature_names ∧
      bank'.version = bank.version := by
  unfold ModelManager.update_test_yield_model
  rw [h]
  refine ⟨_, rfl, rfl, rfl, by simp, by simp, ?_, ?_, rfl, rfl⟩
  · intro hm
    simp [hm]
  · intro t' ht'
    exact ⟨by simp [ht'], by simp [ht']⟩

/-- Witness for C10 at a concrete manager, test code ECG and a source
model holding no ECG regressor. -/
theorem C10_update_test_yield_model_frame_witness :
    (⟨none, some TestYieldModel.init, "v1"⟩ : ModelManager).test_yield_model
      = some TestYieldModel.init ∧
    ∃ bank',
      ((⟨none, some TestYieldModel.init, "v1"⟩ : ModelManager).update_test_yield_model
          "ECG" TestYieldModel.init).test_yield_model = some bank' ∧
      ((⟨none, some TestYieldModel.init, "v1"⟩ : ModelManager).update_test_yield_model
          "ECG" TestYieldModel.init).complexity_model
        = (⟨none, some TestYieldModel.init, "v1"⟩ : ModelManager).complexity_model ∧
      ((⟨none, some TestYieldModel.init, "v1"⟩ : ModelManager).update_test_yield_model
          "ECG" TestYieldModel.init).current_version
        = (⟨none, some TestYieldModel.init, "v1"⟩ : ModelManager).current_version ∧
      bank'.is_fitted "ECG" = true ∧
      bank'.models "ECG" = some (TestYieldModel.init.models "ECG").join ∧
      (TestYieldModel.init.models "ECG" = none → bank'.models "ECG" = some none) ∧
      (∀ t', t' ≠ "ECG" →
        bank'.models t' = TestYieldModel.init.models t' ∧
        bank'.is_fitted t' = TestYieldModel.init.is_fitted t') ∧
      bank'.feature_names = TestYieldModel.init.feature_names ∧
      bank'.version = TestYieldModel.init.version :=
  ⟨rfl, C10_update_test_yield_model_frame
    ⟨none, some TestYieldModel.init, "v1"⟩ TestYieldModel.init "ECG"
    TestYieldModel.init rfl⟩

/-! ## C5: unsupported-test behaviour of fit / predict / save -/

/-- C5 counterexample: `save` does not implement an unsupported-test
check.  On a fresh bank its refusal for the unsupported code "XYZ" is the
missing-model ValueError ("No model for test XYZ", the same error a
supported-but-untrained code gets), and after the reachable hot-swap
`ModelManager.update_test_yield_model("XYZ", fresh_model)` — which
registers the key "XYZ" with a `None` regressor — `save("XYZ")` raises
nothing at all and persists. -/
theorem C5_counterexample :
    "XYZ" ∉ SUPPORTED_TESTS ∧
    TestYieldModel.init.save "XYZ" none =
      .error (.valueError "No model for test XYZ") ∧
    ((⟨none, some TestYieldModel.init, "v1"⟩ : ModelManager).update_test_yield_model
        "XYZ" TestYieldModel.init).test_yield_model.map
      (fun bank => bank.save "XYZ" none) =
      some (.ok "models/v1/test_yield_xyz.joblib") :=
  ⟨by decide, by decide, by decide⟩

/-- C5 (amended): for every test code outside the supported set, `fit`
and `predict` raise the unsupported-test ValueError immediately for every
input; `save` raises immediately as well — with the missing-model
ValueError — whenever every key of the model bank is supported (as holds
for a freshly constructed model and is preserved by the class's own fit
and load). -/
theorem C5_unsupported_fail_fast (t : String) (m : TestYieldModel)
    (X : List (List ℚ)) (y : List ℚ) (trained : List ℚ → ℚ) (f : Features)
    (v : Option String) (ht : t ∉ SUPPORTED_TESTS) :
    m.fit t X y trained = .error (.valueError ("Unsupported test: " ++ t)) ∧
    m.predict t f = .error (.valueError ("Unsupported test: " ++ t)) ∧
    ((∀ k, (m.models k).isSome → k ∈ SUPPORTED_TESTS) →
      m.save t v = .error (.valueError ("No model for test " ++ t))) := by
  refine ⟨?_, ?_, ?_⟩
  · unfold TestYieldModel.fit
    rw [if_neg ht]
  · unfold TestYieldModel.predict
    rw [if_neg ht]
  · intro hinv
    unfold TestYieldModel.save
    have hnone : (m.models t).isNone = true := by
      cases hmt : m.models t with
      | none => rfl
      | some w => exact absurd (hinv t (by simp [hmt])) ht
    rw [if_pos hnone]

/-- Witness for C5 at the unsupported code "XYZ" on a fresh bank. -/
theorem C5_unsupported_fail_fast_witness :
    ("XYZ" ∉ SUPPORTED_TESTS) ∧
    (TestYieldModel.init.fit "XYZ" [] [] (fun _ => 0) =
        .error (.valueError ("Unsupported test: " ++ "XYZ")) ∧
     TestYieldModel.init.predict "XYZ" noFeatures =
        .error (.valueError ("Unsupported test: " ++ "XYZ")) ∧
     ((∀ k, (TestYieldModel.init.models k).isSome → k ∈ SUPPORTED_TESTS) →
      TestYieldModel.init.save "XYZ" none =
        .error (.valueError ("No model for test " ++ "XYZ")))) :=
  ⟨by decide,
    C5_unsupported_fail_fast "XYZ" TestYieldModel.init [] [] (fun _ => 0)
      noFeatures none (by decide)⟩

/-! ## C6: confidence versus feature completeness -/

/-- C6 counterexample: on the fallback path the confidence is the
constant 0.7, not the feature-completeness score (which is 0.5 for an
empty feature map): an unfitted bank on CBC with no features returns
confidence 0.7 while `_calculate_confidence` gives 0.5. -/
theorem C6_counterexample :
    TestYieldModel.init.predict "CBC" noFeatures =
      .ok (0.3, 0.7, "optional", [⟨"rule_based", .num 0.3, 0.3, "increases"⟩]) ∧
    TestYieldModel.calculate_confidence noFeatures = 0.5 ∧
    (0.7 : ℚ) ≠ 0.5 := by
  refine ⟨?_, ?_, by norm_num⟩
  · simp only [TestYieldModel.predict, TestYieldModel.init,
      TestYieldModel.rule_based_prediction, TestYieldModel.has_related_condition,
      TestYieldModel.get_recommendation, noFeatures, TEST_CONDITIONS, SUPPORTED_TESTS,
      pyGetNum, Bind.bind, Except.bind]
    simp
    norm_num [min_def]
  · simp only [TestYieldModel.calculate_confidence, noFeatures, Option.join]
    norm_num [min_def]

/-- C6 (amended): on the fitted path, whenever the feature map lets the
vector extraction and contribution computation complete (no numeric key
present holding `None` is reached), the confidence returned by
`TestYieldModel.predict` is exactly the feature-completeness score —
base 0.5, +0.15 for each required field present and non-`None` (age,
bmi), +0.05 for each optional field present and non-`None` (smoking
status, diabetes flag, cardiac flag), capped at 0.95 — independently of
the regressor and of the predicted yield; any value the fallback path
returns instead carries the constant confidence 0.7. -/
theorem C6_confidence_completeness (m : TestYieldModel) (t : String)
    (f : Features) (reg : List ℚ → ℚ) (X : List ℚ) (C : List Contribution)
    (ht : t ∈ SUPPORTED_TESTS) (hfit : m.is_fitted t = true)
    (hm : m.models t = some (some reg))
    (hX : m.extract_features t f = .ok X)
    (hC : TestYieldModel.calculate_contributions t f X = .ok C) :
    m.predict t f =
      .ok (max 0 (min 1 (reg X)),
        TestYieldModel.calculate_confidence f,
        TestYieldModel.get_recommendation (max 0 (min 1 (reg X))), C) ∧
    TestYieldModel.calculate_confidence f =
      min 0.95 (0.5 + (if f.age.join.isSome then 0.15 else 0) +
        (if f.bmi.join.isSome then 0.15 else 0) +
        (if f.smoking_status.isSome then 0.05 else 0) +
        (if f.has_diabetes.isSome then 0.05 else 0) +
        (if f.has_cardiac.isSome then 0.05 else 0)) ∧
    (∀ (t' : String) (f' : Features) (res : ℚ × ℚ × String × List Contribution),
      TestYieldModel.rule_based_prediction t' f' = .ok res → res.2.1 = 0.7) := by
  refine ⟨?_, rfl, ?_⟩
  · unfold TestYieldModel.predict
    rw [if_pos ht, if_neg (by simp [hfit]), hm]
    simp only [Bind.bind, Except.bind, hX, hC, Pure.pure, Except.pure]
  · intro t' f' res h
    unfold TestYieldModel.rule_based_prediction at h
    cases hrel : TestYieldModel.has_related_condition t' f' with
    | error e =>
        rw [hrel] at h
        simp [Bind.bind, Except.bind] at h
    | ok related =>
        rw [hrel] at h
        simp only [Bind.bind, Except.bind] at h
        split at h
        · simp only [Except.ok.injEq] at h
          subst h
          rfl
        · simp at h
        · simp at h

/-- A concrete fitted regressor used by the C6 witness. -/
def regCBC : List ℚ → ℚ := fun _ => 2

/-- A bank holding a fitted CBC regressor. -/
def fittedCBC : TestYieldModel :=
  { TestYieldModel.init with
    models := fun t => if t = "CBC" then some (some regCBC) else none,
    is_fitted := fun t => t == "CBC" }

/-- Witness for C6 on the fitted CBC bank with an empty feature map. -/
theorem C6_confidence_completeness_witness :
    ("CBC" ∈ SUPPORTED_TESTS ∧ fittedCBC.is_fitted "CBC" = true ∧
      fittedCBC.models "CBC" = some (some regCBC) ∧
      fittedCBC.extract_features "CBC" noFeatures = .ok [35, 24, 0, 0, 0, 0] ∧
      TestYieldModel.calculate_contributions "CBC" noFeatures [35, 24, 0, 0, 0, 0]
        = .ok []) ∧
    (fittedCBC.predict "CBC" noFeatures =
      .ok (max 0 (min 1 (regCBC [35, 24, 0, 0, 0, 0])),
        TestYieldModel.calculate_confidence noFeatures,
        TestYieldModel.get_recommendation (max 0 (min 1 (regCBC [35, 24, 0, 0, 0, 0]))),
        []) ∧
     TestYieldModel.calculate_confidence noFeatures =
      min 0.95 (0.5 + (if noFeatures.age.join.isSome then 0.15 else 0) +
        (if noFeatures.bmi.join.isSome then 0.15 else 0) +
        (if (noFeatures.smoking_status).isSome then 0.05 else 0) +
        (if (noFeatures.has_diabetes).isSome then 0.05 else 0) +
        (if (noFeatures.has_cardiac).isSome then 0.05 else 0)) ∧
     (∀ (t' : String) (f' : Features) (res : ℚ × ℚ × String × List Contribution),
      TestYieldModel.rule_based_prediction t' f' = .ok res → res.2.1 = 0.7)) := by
  have hX : fittedCBC.extract_features "CBC" noFeatures =
      .ok [35, 24, 0, 0, 0, 0] := by decide
  have hC : TestYieldModel.calculate_contributions "CBC" noFeatures
      [35, 24, 0, 0, 0, 0] = .ok [] := by decide
  exact ⟨⟨by decide, rfl, rfl, hX, hC⟩,
    C6_confidence_completeness fittedCBC "CBC" noFeatures regCBC
      [35, 24, 0, 0, 0, 0] [] (by decide) rfl rfl hX hC⟩

/-! ## C1: train/serve feature parity -/

/-- Applicant of the parity counterexample: age 60, bmi 32, current
smoker. -/
def parityApplicant : Applicant :=
  { age := some (some 60), bmi := some 32, height_cm := none, weight_kg := none,
    smoking_status := some "current", date_of_birth := none }

/-- One condition disclosure "Arrhythmia". -/
def parityDisclosures : List Disclosure :=
  [{ disclosure_type := "condition", condition_name := "Arrhythmia",
     family_condition := "" }]

/-- C1 counterexample: on the same underlying applicant, sum assured and
disclosures, the training-row extraction and the serving-time preparation
disagree feature-for-feature under the complexity schema: the smoking
status is encoded 2 versus kept as the raw string "current", the sum
assured is scaled to millions (12) versus kept raw (12,000,000), and the
cardiac flag is true versus false (the serving keyword list lacks
"arrhythmia"). -/
theorem C1_counterexample :
    DataLoader.extract_case_features parityApplicant 12000000 parityDisclosures
        "smoking_status" = some (.num 2) ∧
    InferenceService.prepare_complexity_features parityApplicant 12000000
        parityDisclosures "smoking_status" = some (.str "current") ∧
    DataLoader.extract_case_features parityApplicant 12000000 parityDisclosures
        "sum_assured" = some (.num 12) ∧
    InferenceService.prepare_complexity_features parityApplicant 12000000
        parityDisclosures "sum_assured" = some (.num 12000000) ∧
    DataLoader.extract_case_features parityApplicant 12000000 parityDisclosures
        "has_cardiac" = some (.bool true) ∧
    InferenceService.prepare_complexity_features parityApplicant 12000000
        parityDisclosures "has_cardiac" = some (.bool false) := by
  refine ⟨by decide, by decide, ?_, ?_, by decide, by decide⟩
  · simp [DataLoader.extract_case_features, parityApplicant]
    norm_num
  · simp [InferenceService.prepare_complexity_features, parityApplicant]

/-- C1 (amended): train/serve parity holds only on part of the complexity
schema: for every applicant, sum assured and disclosure list, the
training-row extraction and the serving-time preparation agree on
`condition_count`, `medication_count`, `has_diabetes`,
`has_hypertension` and `family_history_diabetes` (the features computed
by the same filter, keyword set and defaults on both paths); on the
remaining schema features — age, bmi, sum_assured, smoking_status,
has_cardiac, has_renal, family_history_cardiac — they can disagree
(smoking encoding, sum-assured scaling, cardiac/renal and family-cardiac
keyword sets, age/bmi defaulting and rounding), as the counterexample
shows. -/
theorem C1_partial_parity (a : Applicant) (sa : ℚ) (ds : List Disclosure) :
    DataLoader.extract_case_features a sa ds "condition_count" =
      InferenceService.prepare_complexity_features a sa ds "condition_count" ∧
    DataLoader.extract_case_features a sa ds "medication_count" =
      InferenceService.prepare_complexity_features a sa ds "medication_count" ∧
    DataLoader.extract_case_features a sa ds "has_diabetes" =
      InferenceService.prepare_complexity_features a sa ds "has_diabetes" ∧
    DataLoader.extract_case_features a sa ds "has_hypertension" =
      InferenceService.prepare_complexity_features a sa ds "has_hypertension" ∧
    DataLoader.extract_case_features a sa ds "family_history_diabetes" =
      InferenceService.prepare_complexity_features a sa ds "family_history_diabetes" := by
  refine ⟨?_, ?_, ?_, ?_, ?_⟩ <;>
    simp [DataLoader.extract_case_features,
      InferenceService.prepare_complexity_features,
      FeatureEngineer.count_disclosures, FeatureEngineer.condition_text,
      FeatureEngineer.family_text, FeatureEngineer.extract_condition_flags,
      FeatureEngineer.extract_family_history_flags, List.countP_eq_length_filter]

/-! ## C8: determinism of FeatureEngineer.prepare_features -/

/-- Applicant supplying only a date of birth. -/
def dobOnlyApplicant : Applicant :=
  { age := none, bmi := none, height_cm := none, weight_kg := none,
    smoking_status := none, date_of_birth := some ⟨1990, 6, 15⟩ }

/-- C8 counterexample: with a date of birth and no precomputed age, the
extraction depends on the invocation date — evaluated one day before the
applicant's birthday it yields age 35, on the birthday it yields 36 —
so two invocations on the same inputs at different times can differ. -/
theorem C8_counterexample :
    FeatureEngineer.prepare_features dobOnlyApplicant 0 [] ["age"] ⟨2026, 6, 14⟩
      = [35] ∧
    FeatureEngineer.prepare_features dobOnlyApplicant 0 [] ["age"] ⟨2026, 6, 15⟩
      = [36] ∧
    FeatureEngineer.prepare_features dobOnlyApplicant 0 [] ["age"] ⟨2026, 6, 14⟩
      ≠ FeatureEngineer.prepare_features dobOnlyApplicant 0 [] ["age"] ⟨2026, 6, 15⟩ :=
  ⟨by decide, by decide, by decide⟩

/-- C8 (amended): `FeatureEngineer.prepare_features` is a pure function
of its inputs together with the evaluation date: two invocations at the
same date always agree, and whenever the applicant carries a truthy
(nonzero) age or no date of birth, the result is independent of the
evaluation date as well; only the date-of-birth fallback path is
time-dependent. -/
theorem C8_determinism (a : Applicant) (sa : ℚ) (ds : List Disclosure)
    (names : List String) (d1 d2 : UWDate)
    (h : truthyNum a.age.join = true ∨ a.date_of_birth = none) :
    FeatureEngineer.prepare_features a sa ds names d1 =
      FeatureEngineer.prepare_features a sa ds names d2 := by
  have hage : pyOr a.age.join (FeatureEngineer.calculate_age a.date_of_birth d1) =
      pyOr a.age.join (FeatureEngineer.calculate_age a.date_of_birth d2) := by
    rcases h with h | h
    · unfold pyOr
      rw [if_pos h, if_pos h]
    · rw [h]
      rfl
  unfold FeatureEngineer.prepare_features FeatureEngineer.all_features
  rw [hage]

/-- Witness for C8 at an applicant with a supplied age and two different
evaluation dates. -/
theorem C8_determinism_witness :
    truthyNum (⟨some (some 60), none, none, none, none, none⟩ : Applicant).age.join
      = true ∧
    FeatureEngineer.prepare_features ⟨some (some 60), none, none, none, none, none⟩
        0 [] ["age", "bmi"] ⟨2026, 1, 1⟩ =
      FeatureEngineer.prepare_features ⟨some (some 60), none, none, none, none, none⟩
        0 [] ["age", "bmi"] ⟨2027, 5, 5⟩ :=
  ⟨by decide, C8_determinism ⟨some (some 60), none, none, none, none, none⟩ 0 []
    ["age", "bmi"] ⟨2026, 1, 1⟩ ⟨2027, 5, 5⟩ (Or.inl (by decide))⟩

/-! ## C9: falsy present values are treated as absent -/

/-- `pyOr` does not distinguish a present zero from an absent value. -/
theorem pyOr_some_zero (b : Option ℚ) : pyOr (some 0) b = pyOr none b := by
  simp [pyOr, truthyNum]

/-- A zero height is treated as missing by `calculate_bmi`. -/
theorem calculate_bmi_zero_height (w : Option ℚ) :
    FeatureEngineer.calculate_bmi (some 0) w = FeatureEngineer.calculate_bmi none w := by
  simp [FeatureEngineer.calculate_bmi, truthyNum]

/-- A zero weight is treated as missing by `calculate_bmi`. -/
theorem calculate_bmi_zero_weight (h : Option ℚ) :
    FeatureEngineer.calculate_bmi h (some 0) = FeatureEngineer.calculate_bmi h none := by
  simp [FeatureEngineer.calculate_bmi, truthyNum]

/-- With a zero weight `calculate_bmi` returns no value at all. -/
theorem calculate_bmi_zero_weight_none (h : Option ℚ) :
    FeatureEngineer.calculate_bmi h (some 0) = none := by
  simp [FeatureEngineer.calculate_bmi, truthyNum]

/-- C9: `prepare_features` treats falsy present values exactly as absent
ones — an applicant with age 0, bmi 0.0, height 0 or weight 0 produces
the same vector as one missing that field — and the documented defaults
are then substituted: with age 0 and no date of birth the age feature is
35, and with bmi 0 and weight 0 the bmi feature is 24. -/
theorem C9_falsy_values_defaulted
    (ag : Option (Option ℚ)) (bm hcm wkg : Option ℚ) (s : Option String)
    (dob : Option UWDate)
    (sa : ℚ) (ds : List Disclosure) (names : List String) (today : UWDate) :
    (FeatureEngineer.prepare_features ⟨some (some 0), bm, hcm, wkg, s, dob⟩
        sa ds names today =
      FeatureEngineer.prepare_features ⟨none, bm, hcm, wkg, s, dob⟩ sa ds names today) ∧
    (FeatureEngineer.prepare_features ⟨ag, some 0, hcm, wkg, s, dob⟩ sa ds names today =
      FeatureEngineer.prepare_features ⟨ag, none, hcm, wkg, s, dob⟩ sa ds names today) ∧
    (FeatureEngineer.prepare_features ⟨ag, bm, some 0, wkg, s, dob⟩ sa ds names today =
      FeatureEngineer.prepare_features ⟨ag, bm, none, wkg, s, dob⟩ sa ds names today) ∧
    (FeatureEngineer.prepare_features ⟨ag, bm, hcm, some 0, s, dob⟩ sa ds names today =
      FeatureEngineer.prepare_features ⟨ag, bm, hcm, none, s, dob⟩ sa ds names today) ∧
    FeatureEngineer.all_features ⟨some (some 0), bm, hcm, wkg, s, none⟩ sa ds today
      "age" = 35 ∧
    FeatureEngineer.all_features ⟨ag, some 0, hcm, some 0, s, dob⟩ sa ds today "bmi"
      = 24 := by
  refine ⟨?_, ?_, ?_, ?_, ?_, ?_⟩
  · unfold FeatureEngineer.prepare_features FeatureEngineer.all_features
    rw [show (⟨some (some 0), bm, hcm, wkg, s, dob⟩ : Applicant).age.join = some 0
        from rfl,
      show (⟨none, bm, hcm, wkg, s, dob⟩ : Applicant).age.join = (none : Option ℚ)
        from rfl,
      pyOr_some_zero]
  · unfold FeatureEngineer.prepare_features FeatureEngineer.all_features
    rw [show (⟨ag, some 0, hcm, wkg, s, dob⟩ : Applicant).bmi = some 0 from rfl,
      pyOr_some_zero]
  · unfold FeatureEngineer.prepare_features FeatureEngineer.all_features
    rw [show (⟨ag, bm, some 0, wkg, s, dob⟩ : Applicant).height_cm = some 0 from rfl,
      calculate_bmi_zero_height]
  · unfold FeatureEngineer.prepare_features FeatureEngineer.all_features
    rw [show (⟨ag, bm, hcm, some 0, s, dob⟩ : Applicant).weight_kg = some 0 from rfl,
      calculate_bmi_zero_weight]
  · simp [FeatureEngineer.all_features, FeatureEngineer.calculate_age, pyOr, pyOrD,
      truthyNum]
  · simp [FeatureEngineer.all_features, calculate_bmi_zero_weight_none, pyOr, pyOrD,
      truthyNum]
